import Mathlib

/-!
Verification development for the Licensy data model (src/bot/models/models.py).

The tortoise-ORM models are embedded shallowly: each model row becomes a
structure, a database table becomes a list of rows, and `Model.save` becomes a
function from a table and a row to the new table paired with an
`Except DBError Unit` result.  Tortoise runs the `_pre_save` hook, then executes
the SQL write, then runs the `_post_save` hook; an exception raised in
`_pre_save` prevents the write, while an exception raised in `_post_save`
propagates to the caller after the row has already been written (plain
`save` is not wrapped in a transaction, so the write is not undone).
-/

namespace Licensy

/-- Errors raised by the model save hooks: tortoise `FieldError` and
`IntegrityError`. -/
inductive DBError where
  | fieldError (msg : String)
  | integrityError (msg : String)
deriving Repr, DecidableEq

/-- Whether a save outcome raised no exception. -/
def saveOk : Except DBError Unit → Bool
  | .ok _ => true
  | .error _ => false

/-- Row of the `reminders_settings` table (model `ReminderActivations`).
All five fields are `BigIntField`s, embedded as `Int`.  Defaults:
`first_activation = 720`, the rest `0`. -/
structure ReminderActivations where
  first_activation : Int
  second_activation : Int
  third_activation : Int
  fourth_activation : Int
  fifth_activation : Int
deriving Repr, DecidableEq

/-- The model defaults of `ReminderActivations`: `first_activation = 720`,
all other activations `0`. -/
def ReminderActivations.defaultRow : ReminderActivations :=
  ⟨720, 0, 0, 0, 0⟩

/-- `ReminderActivations.get_all_activations`: the five activation fields in
order. -/
def ReminderActivations.get_all_activations (r : ReminderActivations) : List Int :=
  [r.first_activation, r.second_activation, r.third_activation,
   r.fourth_activation, r.fifth_activation]

/-- `ReminderActivations._check_valid_first_activation`: raises `FieldError`
unless `self[0] > 0`. -/
def ReminderActivations.check_valid_first_activation
    (r : ReminderActivations) : Except DBError Unit :=
  if r.first_activation > 0 then .ok ()
  else .error (.fieldError "Reminder first activation has to be enabled.")

/-- `ReminderActivations._check_activation_ranges`: raises `FieldError` on the
first negative activation value. -/
def ReminderActivations.check_activation_ranges
    (r : ReminderActivations) : Except DBError Unit :=
  if r.get_all_activations.all (fun a => decide (0 ≤ a)) then .ok ()
  else .error (.fieldError "Reminder activation value cannot be negative.")

/-- `ReminderActivations._check_valid_order_activations`: walks the adjacent
pairs `zip(activations, activations[1:])` and raises `FieldError` when a pair
satisfies `pair[0] < pair[1]`.  Hence it accepts exactly the weakly decreasing
sequences. -/
def ReminderActivations.check_valid_order_activations
    (r : ReminderActivations) : Except DBError Unit :=
  if (r.get_all_activations.zip r.get_all_activations.tail).all
      (fun p => decide (p.2 ≤ p.1)) then .ok ()
  else .error (.fieldError
    "Reminder activation fields have to be ordered from highest to lowest without duplicate values.")

/-- `ReminderActivations._post_save`: the three checks in source order. -/
def ReminderActivations.post_save_checks
    (r : ReminderActivations) : Except DBError Unit := do
  r.check_valid_first_activation
  r.check_activation_ranges
  r.check_valid_order_activations

/-- `Model.save` for `ReminderActivations`.  The model defines no `_pre_save`
checks, so the row is written unconditionally; the `_post_save` hook then runs
its checks, and an exception it raises propagates to the caller after the
write, leaving the row in the table. -/
def ReminderActivations.save (db : List ReminderActivations)
    (r : ReminderActivations) : List ReminderActivations × Except DBError Unit :=
  (db ++ [r], r.post_save_checks)

/-- The validity predicate as the specification states it: `first_activation`
strictly positive, every activation non-negative, and each later entry either
zero (unset, trailing) or strictly below its predecessor — in particular no
two equal non-zero values. -/
def specValidActivations (r : ReminderActivations) : Bool :=
  decide (0 < r.first_activation) &&
  r.get_all_activations.all (fun a => decide (0 ≤ a)) &&
  (r.get_all_activations.zip r.get_all_activations.tail).all
    (fun p => decide (p.2 = 0 ∨ p.2 < p.1))

/-- Row of the `roles` table (model `Role`).  `id` is the platform role id
(primary key), `guild` the owning guild id; `tier_level` and `tier_power` are
`SmallIntField`s embedded as `Int`. -/
structure Role where
  id : Int
  guild : Int
  tier_level : Int
  tier_power : Int
deriving Repr, DecidableEq

/-- The duplicate-slot query inside `Role._pre_save`:
`Role.get(~Q(id=self.id), guild=self.guild, tier_level=self.tier_level,
tier_power=self.tier_power).exists()`. -/
def Role.duplicate_slot_exists (db : List Role) (r : Role) : Bool :=
  db.any fun o =>
    (o.id != r.id) && (o.guild == r.guild) &&
    (o.tier_level == r.tier_level) && (o.tier_power == r.tier_power)

/-- `Role._pre_save`: rejects `tier_level` outside `0..100` and `tier_power`
outside `0..9`; then, when `tier_level` is not `0`, rejects a duplicate
`(guild, tier_level, tier_power)` slot held by a different role row. -/
def Role.pre_save (db : List Role) (r : Role) : Except DBError Unit :=
  if ¬(0 ≤ r.tier_level ∧ r.tier_level ≤ 100) then
    .error (.fieldError "Role tier power has to be in 0-100 range.")
  else if ¬(0 ≤ r.tier_power ∧ r.tier_power ≤ 9) then
    .error (.fieldError "Role tier power has to be in 0-9 range.")
  else if r.tier_level ≠ 0 then
    if Role.duplicate_slot_exists db r then
      .error (.integrityError "Cannot have 2 roles with same tier level or power!")
    else .ok ()
  else .ok ()

/-- `Model.save` for `Role`: a `_pre_save` exception prevents the write;
otherwise the row is upserted by its primary key `id`. -/
def Role.save (db : List Role) (r : Role) : List Role × Except DBError Unit :=
  match Role.pre_save db r with
  | .error e => (db, .error e)
  | .ok () => (db.filter (fun o => o.id != r.id) ++ [r], .ok ())

/-- The per-guild tier-slot invariant: no two role rows with different ids in
the same guild hold the same non-zero `(tier_level, tier_power)` pair. -/
def uniqueTierSlots (db : List Role) : Prop :=
  ∀ o₁ ∈ db, ∀ o₂ ∈ db, o₁.id ≠ o₂.id → o₁.guild = o₂.guild →
    o₁.tier_level ≠ 0 → o₁.tier_level = o₂.tier_level →
    o₁.tier_power ≠ o₂.tier_power

/-- Row of the `role_packets` table (model `RolePacket`), restricted to the
fields the packet-role checks read: surrogate id, owning guild, name and
default duration. -/
structure RolePacket where
  id : Nat
  guild : Int
  name : String
  default_role_duration : Int
deriving Repr, DecidableEq

/-- `RolePacket.MAXIMUM_ROLES`. -/
def RolePacket.MAXIMUM_ROLES : Nat := 20

/-- Row of the `packet_roles` table (model `PacketRole`).  The Python object
holds loaded `role` and `role_packet` relations; they are embedded by value. -/
structure PacketRole where
  role : Role
  role_packet : RolePacket
  duration : Int
deriving Repr, DecidableEq

/-- The count query `self.role_packet.packet_roles.all().count()`: packet-role
rows belonging to the given packet. -/
def packetRolesCount (db : List PacketRole) (p : RolePacket) : Nat :=
  (db.filter (fun pr => pr.role_packet.id == p.id)).length

/-- `PacketRole._pre_save`: rejects a negative duration, then a packet that
would exceed `MAXIMUM_ROLES` (the count is taken before this row is written,
hence the `+ 1`), then mismatched guilds between the role and the packet. -/
def PacketRole.pre_save (db : List PacketRole) (pr : PacketRole) :
    Except DBError Unit :=
  if pr.duration < 0 then
    .error (.fieldError "Invalid duration for role.")
  else if packetRolesCount db pr.role_packet + 1 > RolePacket.MAXIMUM_ROLES then
    .error (.integrityError
      "Cannot add packet role as number of roles in packet would exceed limit of 20 roles.")
  else if pr.role.guild ≠ pr.role_packet.guild then
    .error (.integrityError "Packet role fields have to point to the same guild!")
  else .ok ()

/-- `Model.save` on the create path for `PacketRole` (surrogate primary key, so
a create appends a fresh row): a `_pre_save` exception prevents the write. -/
def PacketRole.save (db : List PacketRole) (pr : PacketRole) :
    List PacketRole × Except DBError Unit :=
  match PacketRole.pre_save db pr with
  | .error e => (db, .error e)
  | .ok () => (db ++ [pr], .ok ())

/-- Row of the `licenses` table (model `License`): `key` is the primary key,
`reminder_activations` the id of the one-to-one `ReminderActivations` row. -/
structure License where
  key : String
  guild : Int
  reminder_activations : Nat
  inactive : Bool
deriving Repr, DecidableEq

/-- `License.KEY_MIN_LENGTH`. -/
def License.KEY_MIN_LENGTH : Nat := 14

/-- `License._pre_save`: rejects a key shorter than `KEY_MIN_LENGTH`. -/
def License.pre_save (l : License) : Except DBError Unit :=
  if l.key.length < License.KEY_MIN_LENGTH then
    .error (.fieldError "License key has to be longer than 14 characters.")
  else .ok ()

/-- `Model.save` for `License`: a `_pre_save` exception prevents the write;
otherwise the row is upserted by its primary key `key`. -/
def License.save (db : List License) (l : License) :
    List License × Except DBError Unit :=
  match License.pre_save l with
  | .error e => (db, .error e)
  | .ok () => (db.filter (fun o => o.key != l.key) ++ [l], .ok ())

/-- A stored `ReminderActivations` row together with its surrogate primary
key, as referenced by the one-to-one fields of `Guild` and `License`. -/
structure RemRow where
  id : Nat
  values : ReminderActivations
deriving Repr, DecidableEq

/-- Row of the `guilds` table (model `Guild`), restricted to the fields
`License.create` and `RegeneratingLicense.regenerate` read: the guild id, the
key-generation configuration, and the id of the guild's own configured
`ReminderActivations` row. -/
structure Guild where
  id : Int
  custom_license_format : String
  license_branding : String
  reminder_activations : Nat
deriving Repr, DecidableEq

/-- Row of the `licenses` table for the `RegeneratingLicense` variant, which
adds the `role_packet` foreign key (stored as the packet id). -/
structure RegLicense where
  key : String
  guild : Int
  reminder_activations : Nat
  inactive : Bool
  role_packet : Nat
deriving Repr, DecidableEq

/-- `RegeneratingLicense` inherits `License._pre_save`: the key-length check. -/
def RegLicense.pre_save (l : RegLicense) : Except DBError Unit :=
  if l.key.length < License.KEY_MIN_LENGTH then
    .error (.fieldError "License key has to be longer than 14 characters.")
  else .ok ()

/-- The storage state `RegeneratingLicense.regenerate` touches: the
`reminders_settings` table and the `licenses` table. -/
structure LicenseState where
  reminders : List RemRow
  licenses : List RegLicense
deriving Repr, DecidableEq

/-- Lookup of a `ReminderActivations` row by its id (the loaded one-to-one
relation). -/
def lookupRem (db : List RemRow) (i : Nat) : Option RemRow :=
  db.find? (fun r => r.id == i)

/-- `RegeneratingLicense.regenerate`, with each storage write producing one
observable state; the returned list is the trace of observable states, the
initial state first.  The steps follow the source: (1) `create_easy` writes a
fresh `ReminderActivations` row copying the five activation values of this
license's row (its `_post_save` checks run after that write and a failure
there aborts the rest); (2) the new license row — new key, same guild, the
fresh reminders row, same role packet, `inactive` left at its default
`False` — is saved; (3) `self.inactive` is set to `True` and `self` is saved.
The new key comes from `LicenseFormatter.generate_single` (a module that is
not part of the embedded model code), so it enters as the `newKey` argument,
and the fresh surrogate id of the copied reminders row as `freshRemId`. -/
def RegLicense.regenerate (s : LicenseState) (self : RegLicense)
    (newKey : String) (freshRemId : Nat) :
    List LicenseState × Except DBError RegLicense :=
  match lookupRem s.reminders self.reminder_activations with
  | none => ([s], .error (.fieldError "reminder activations row does not exist"))
  | some origRem =>
    let s₁ : LicenseState :=
      ⟨s.reminders ++ [⟨freshRemId, origRem.values⟩], s.licenses⟩
    match origRem.values.post_save_checks with
    | .error e => ([s, s₁], .error e)
    | .ok () =>
      let newLicense : RegLicense :=
        ⟨newKey, self.guild, freshRemId, false, self.role_packet⟩
      match RegLicense.pre_save newLicense with
      | .error e => ([s, s₁], .error e)
      | .ok () =>
        let s₂ : LicenseState :=
          ⟨s₁.reminders, s₁.licenses.filter (fun o => o.key != newKey) ++ [newLicense]⟩
        let updatedSelf : RegLicense := { self with inactive := true }
        match RegLicense.pre_save updatedSelf with
        | .error e => ([s, s₁, s₂], .error e)
        | .ok () =>
          let s₃ : LicenseState :=
            ⟨s₂.reminders,
             s₂.licenses.filter (fun o => o.key != self.key) ++ [updatedSelf]⟩
          ([s, s₁, s₂, s₃], .ok newLicense)

/-- `License.create`: pops the `reminder_activations` keyword argument; when
it is absent or falsy, a brand-new `ReminderActivations` row is created with
the model defaults (its `_post_save` checks run after that write); the guild
row passed through to `super().create` is not consulted for reminder values.
The license row is then saved (running `License._pre_save`).  Returns the new
reminders table, the new licenses table, and the created license or the first
error raised. -/
def License.createModel (remDB : List RemRow) (licDB : List License) (g : Guild)
    (reminder_activations : Option Nat) (key : String) (freshRemId : Nat) :
    (List RemRow × List License) × Except DBError License :=
  match reminder_activations with
  | some rid =>
    let l : License := ⟨key, g.id, rid, false⟩
    match License.save licDB l with
    | (db₂, .ok ()) => ((remDB, db₂), .ok l)
    | (db₂, .error e) => ((remDB, db₂), .error e)
  | none =>
    let remDB₂ := remDB ++ [⟨freshRemId, ReminderActivations.defaultRow⟩]
    match ReminderActivations.defaultRow.post_save_checks with
    | .error e => ((remDB₂, licDB), .error e)
    | .ok () =>
      let l : License := ⟨key, g.id, freshRemId, false⟩
      match License.save licDB l with
      | (db₂, .ok ()) => ((remDB₂, db₂), .ok l)
      | (db₂, .error e) => ((remDB₂, db₂), .error e)

/-- Modelled from the spec: the character-class sizes of
`LicenseFormatter` (`bot/utils/licence_helper.py`, which is not under the
embedded sources).  A placeholder character stands for a character class —
the spec's scenarios use `A` for "any digit" (10 characters) and `X` for
"any alphanumeric" (36 characters) — and a literal character contributes a
factor of 1 to the permutation count. -/
def placeholderClassSize (c : Char) : Nat :=
  if c = 'A' then 10
  else if c = 'X' then 36
  else 1

/-- A character is a placeholder when it stands for a character class of more
than one character. -/
def isPlaceholder (c : Char) : Bool :=
  c = 'A' || c = 'X'

/-- Product of the class sizes over a list of template characters. -/
def permProduct : List Char → Nat
  | [] => 1
  | c :: rest => placeholderClassSize c * permProduct rest

/-- Modelled from the spec: `LicenseFormatter.get_format_permutations`
(`bot/utils/licence_helper.py`, not under the embedded sources) — for each
placeholder run the class size raised to the run length, multiplied across all
runs, literals contributing a factor of 1; since exponentiation over a run is
the product of one class-size factor per character and literals contribute 1,
this equals the product of the class size over every template character. -/
def get_format_permutations (template : String) : Nat :=
  permProduct template.data

/-- Modelled from the spec: `LicenseFormatter.min_permutation_count`
(`bot/utils/licence_helper.py`, not under the embedded sources) — a fixed
minimum; the spec's scenario instantiates it as `36 ^ 8`.  The monotonicity
property proved below does not depend on the chosen value. -/
def min_permutation_count : Nat := 36 ^ 8

/-- Modelled from the spec: `LicenseFormatter.is_secure` — a template is
secure exactly when its permutation count reaches `min_permutation_count`. -/
def is_secure (template : String) : Bool :=
  decide (min_permutation_count ≤ get_format_permutations template)

/-- A concrete stored self-regenerating license used by the concrete
instantiations below; its key is 14 characters long. -/
def exOriginal : RegLicense :=
  ⟨"ORIGINAL-KEY-1", 7, 1, false, 3⟩

/-- A concrete storage state holding `exOriginal` and its reminders row. -/
def exState : LicenseState :=
  ⟨[⟨1, ⟨720, 0, 0, 0, 0⟩⟩], [exOriginal]⟩

/-- Helper: `Role.save` either succeeds, upserting the row, or fails with the
`_pre_save` error, leaving the table unchanged. -/
theorem role_save_cases (db : List Role) (r : Role) :
    (Role.save db r = (db.filter (fun o => o.id != r.id) ++ [r], .ok ()) ∧
      Role.pre_save db r = .ok ()) ∨
    (∃ e, Role.save db r = (db, .error e) ∧ Role.pre_save db r = .error e) := by
  unfold Role.save
  cases h : Role.pre_save db r with
  | ok a => cases a; exact .inl ⟨rfl, rfl⟩
  | error e => exact .inr ⟨e, rfl, rfl⟩

/-- Helper: success of `Role.save` is success of `Role._pre_save`. -/
theorem role_save_ok_iff (db : List Role) (r : Role) :
    saveOk (Role.save db r).2 = true ↔ Role.pre_save db r = .ok () := by
  rcases role_save_cases db r with ⟨hs, hp⟩ | ⟨e, hs, hp⟩ <;>
    rw [hs, hp] <;> simp [saveOk]

/-- Helper: a failed `Role.save` leaves the table unchanged. -/
theorem role_save_state_of_error (db : List Role) (r : Role)
    (h : saveOk (Role.save db r).2 = false) : (Role.save db r).1 = db := by
  rcases role_save_cases db r with ⟨hs, _⟩ | ⟨e, hs, _⟩
  · rw [hs] at h; simp [saveOk] at h
  · rw [hs]

/-- Helper: a successful `Role.save` upserts the row by its id. -/
theorem role_save_state_of_ok (db : List Role) (r : Role)
    (h : saveOk (Role.save db r).2 = true) :
    (Role.save db r).1 = db.filter (fun o => o.id != r.id) ++ [r] := by
  rcases role_save_cases db r with ⟨hs, _⟩ | ⟨e, hs, _⟩
  · rw [hs]
  · rw [hs] at h; simp [saveOk] at h

/-- Helper: the duplicate-slot query holds exactly when a different stored row
of the same guild carries the same `(tier_level, tier_power)` pair. -/
theorem Role.duplicate_slot_exists_iff (db : List Role) (r : Role) :
    Role.duplicate_slot_exists db r = true ↔
      ∃ o ∈ db, o.id ≠ r.id ∧ o.guild = r.guild ∧
        o.tier_level = r.tier_level ∧ o.tier_power = r.tier_power := by
  unfold Role.duplicate_slot_exists
  simp [List.any_eq_true, bne_iff_ne, and_assoc]

/-- Helper: `Role._pre_save` succeeds exactly when both range checks pass and
either tiers are disabled or no duplicate slot is stored. -/
theorem role_pre_save_ok_iff (db : List Role) (r : Role) :
    Role.pre_save db r = .ok () ↔
      (0 ≤ r.tier_level ∧ r.tier_level ≤ 100) ∧
      (0 ≤ r.tier_power ∧ r.tier_power ≤ 9) ∧
      (r.tier_level = 0 ∨ Role.duplicate_slot_exists db r = false) := by
  unfold Role.pre_save
  by_cases h₁ : 0 ≤ r.tier_level ∧ r.tier_level ≤ 100
  · by_cases h₂ : 0 ≤ r.tier_power ∧ r.tier_power ≤ 9
    · by_cases h₃ : r.tier_level = 0
      · simp [h₁, h₂, h₃]
      · by_cases h₄ : Role.duplicate_slot_exists db r = true
        · simp [h₁, h₂, h₃, h₄]
        · simp [h₁, h₂, h₃, h₄]
    · simp [h₁, h₂]
  · simp [h₁]

/-- C1: within a guild, saving a role whose `(tier_level, tier_power)` pair
equals the non-zero pair of a different already-stored role of the same guild
raises an error and leaves the table unchanged; saving with a pair not taken
(or with tier_level 0) and in-range tier values succeeds; consequently a
table satisfying the per-guild tier-slot uniqueness invariant still satisfies
it after any successful save. -/
theorem C1_tier_slot_uniqueness (db : List Role) (r : Role) :
    ((∃ o ∈ db, o.id ≠ r.id ∧ o.guild = r.guild ∧ o.tier_level ≠ 0 ∧
        o.tier_level = r.tier_level ∧ o.tier_power = r.tier_power) →
      saveOk (Role.save db r).2 = false ∧ (Role.save db r).1 = db) ∧
    ((0 ≤ r.tier_level ∧ r.tier_level ≤ 100) →
      (0 ≤ r.tier_power ∧ r.tier_power ≤ 9) →
      (r.tier_level = 0 ∨
        ∀ o ∈ db, ¬(o.id ≠ r.id ∧ o.guild = r.guild ∧
          o.tier_level = r.tier_level ∧ o.tier_power = r.tier_power)) →
      saveOk (Role.save db r).2 = true) ∧
    (uniqueTierSlots db → saveOk (Role.save db r).2 = true →
      uniqueTierSlots (Role.save db r).1) := by
  refine ⟨?_, ?_, ?_⟩
  · rintro ⟨o, ho, hid, hg, hnz, htl, htp⟩
    have hdup : Role.duplicate_slot_exists db r = true :=
      (Role.duplicate_slot_exists_iff db r).mpr ⟨o, ho, hid, hg, htl, htp⟩
    have hfail : saveOk (Role.save db r).2 = false := by
      cases hsv : saveOk (Role.save db r).2 with
      | false => rfl
      | true =>
        rcases (role_pre_save_ok_iff db r).mp
            ((role_save_ok_iff db r).mp hsv) with ⟨-, -, h0 | hdf⟩
        · exact absurd (htl.trans h0) hnz
        · rw [hdup] at hdf; exact Bool.noConfusion hdf
    exact ⟨hfail, role_save_state_of_error db r hfail⟩
  · intro h₁ h₂ h₃
    apply (role_save_ok_iff db r).mpr
    apply (role_pre_save_ok_iff db r).mpr
    refine ⟨h₁, h₂, ?_⟩
    rcases h₃ with h0 | hnone
    · exact .inl h0
    · right
      cases hd : Role.duplicate_slot_exists db r with
      | false => rfl
      | true =>
        rcases (Role.duplicate_slot_exists_iff db r).mp hd with ⟨o, ho, hprops⟩
        exact absurd hprops (hnone o ho)
  · intro hinv hok
    rw [role_save_state_of_ok db r hok]
    have hmem : ∀ x ∈ db.filter (fun o => o.id != r.id) ++ [r],
        x = r ∨ (x ∈ db ∧ x.id ≠ r.id) := by
      intro x hx
      rcases List.mem_append.mp hx with hxf | hxr
      · have h := List.mem_filter.mp hxf
        exact .inr ⟨h.1, by simpa [bne_iff_ne] using h.2⟩
      · exact .inl (List.mem_singleton.mp hxr)
    have hnodup : r.tier_level ≠ 0 → Role.duplicate_slot_exists db r = false := by
      intro hrnz
      rcases (role_pre_save_ok_iff db r).mp
          ((role_save_ok_iff db r).mp hok) with ⟨-, -, h0 | hdf⟩
      · exact absurd h0 hrnz
      · exact hdf
    unfold uniqueTierSlots at hinv ⊢
    intro o₁ ho₁ o₂ ho₂ hid hg hnz htl htp
    rcases hmem o₁ ho₁ with heq₁ | ⟨h₁db, h₁id⟩
    · rcases hmem o₂ ho₂ with heq₂ | ⟨h₂db, h₂id⟩
      · exact hid (congrArg Role.id (heq₁.trans heq₂.symm))
      · have hdup : Role.duplicate_slot_exists db r = true :=
          (Role.duplicate_slot_exists_iff db r).mpr
            ⟨o₂, h₂db, h₂id, (heq₁ ▸ hg).symm, (heq₁ ▸ htl).symm, (heq₁ ▸ htp).symm⟩
        rw [hnodup (heq₁ ▸ hnz)] at hdup
        exact Bool.noConfusion hdup
    · rcases hmem o₂ ho₂ with heq₂ | ⟨h₂db, h₂id⟩
      · have hrnz : r.tier_level ≠ 0 := fun h0 => hnz ((heq₂ ▸ htl).trans h0)
        have hdup : Role.duplicate_slot_exists db r = true :=
          (Role.duplicate_slot_exists_iff db r).mpr
            ⟨o₁, h₁db, h₁id, heq₂ ▸ hg, heq₂ ▸ htl, heq₂ ▸ htp⟩
        rw [hnodup hrnz] at hdup
        exact Bool.noConfusion hdup
      · exact hinv o₁ h₁db o₂ h₂db hid hg hnz htl htp

/-- Witness for C1: with role 1 of guild 5 holding the non-zero slot (2, 3),
saving role 2 with the same slot fails and changes nothing, while saving
role 2 with slot (2, 4) succeeds and preserves the uniqueness invariant. -/
theorem C1_witness :
    (saveOk (Role.save [⟨1, 5, 2, 3⟩] ⟨2, 5, 2, 3⟩).2 = false ∧
      (Role.save [⟨1, 5, 2, 3⟩] ⟨2, 5, 2, 3⟩).1 = [⟨1, 5, 2, 3⟩]) ∧
    saveOk (Role.save [⟨1, 5, 2, 3⟩] ⟨2, 5, 2, 4⟩).2 = true ∧
    uniqueTierSlots (Role.save [⟨1, 5, 2, 3⟩] ⟨2, 5, 2, 4⟩).1 :=
  ⟨(C1_tier_slot_uniqueness [⟨1, 5, 2, 3⟩] ⟨2, 5, 2, 3⟩).1 (by decide),
   (C1_tier_slot_uniqueness [⟨1, 5, 2, 3⟩] ⟨2, 5, 2, 4⟩).2.1
     (by decide) (by decide) (by decide),
   (C1_tier_slot_uniqueness [⟨1, 5, 2, 3⟩] ⟨2, 5, 2, 4⟩).2.2
     (by unfold uniqueTierSlots; decide)
     ((C1_tier_slot_uniqueness [⟨1, 5, 2, 3⟩] ⟨2, 5, 2, 4⟩).2.1
       (by decide) (by decide) (by decide))⟩

/-- C2 (code-bug evidence): `_check_valid_order_activations` compares adjacent
pairs with a strict less-than, so it accepts two equal non-zero activation
values: the row (5, 5, 0, 0, 0) is saved without error and persisted although
the claimed validity predicate (strictly decreasing non-zero values) rejects
it. -/
theorem C2_code_accepts_equal_nonzero_activations :
    saveOk (ReminderActivations.save [] ⟨5, 5, 0, 0, 0⟩).2 = true ∧
    (ReminderActivations.save [] ⟨5, 5, 0, 0, 0⟩).1 = [⟨5, 5, 0, 0, 0⟩] ∧
    specValidActivations ⟨5, 5, 0, 0, 0⟩ = false := by decide

/-- C5 (code-bug evidence): the `ReminderActivations` checks run in the
post-save hook, after the row is written, so an invalid row — here with
`first_activation = 0` — raises the error yet remains persisted: the stored
state after the rejected save differs from the stored state before it. -/
theorem C5_invalid_row_persisted :
    saveOk (ReminderActivations.save [] ⟨0, 0, 0, 0, 0⟩).2 = false ∧
    (ReminderActivations.save [] ⟨0, 0, 0, 0, 0⟩).1 = [⟨0, 0, 0, 0, 0⟩] ∧
    (ReminderActivations.save [] ⟨0, 0, 0, 0, 0⟩).1 ≠ ([] : List ReminderActivations) := by
  decide

/-- C6 counterexample: a role with `tier_power = 0` — outside the claimed
1..9 range — is accepted by `Role.save`, so the claim that such a save is
rejected fails on the code (the stored check allows 0..9). -/
theorem C6_counterexample :
    saveOk (Role.save [] ⟨1, 1, 0, 0⟩).2 = true ∧
    ¬(1 ≤ (⟨1, 1, 0, 0⟩ : Role).tier_power ∧
      (⟨1, 1, 0, 0⟩ : Role).tier_power ≤ 9) := by decide

/-- C6 (amended): saving a role is rejected, with the table unchanged,
whenever `tier_level` is outside 0..100 or `tier_power` is outside 0..9; every
successful save has both values in those ranges, and a table whose rows are
all in range keeps that property across any successful save. -/
theorem C6_tier_range_checks (db : List Role) (r : Role) :
    ((¬(0 ≤ r.tier_level ∧ r.tier_level ≤ 100) ∨
      ¬(0 ≤ r.tier_power ∧ r.tier_power ≤ 9)) →
      saveOk (Role.save db r).2 = false ∧ (Role.save db r).1 = db) ∧
    (saveOk (Role.save db r).2 = true →
      (0 ≤ r.tier_level ∧ r.tier_level ≤ 100) ∧
      (0 ≤ r.tier_power ∧ r.tier_power ≤ 9)) ∧
    ((∀ o ∈ db, (0 ≤ o.tier_level ∧ o.tier_level ≤ 100) ∧
        (0 ≤ o.tier_power ∧ o.tier_power ≤ 9)) →
      saveOk (Role.save db r).2 = true →
      ∀ o ∈ (Role.save db r).1,
        (0 ≤ o.tier_level ∧ o.tier_level ≤ 100) ∧
        (0 ≤ o.tier_power ∧ o.tier_power ≤ 9)) := by
  refine ⟨?_, ?_, ?_⟩
  · intro hbad
    have hfail : saveOk (Role.save db r).2 = false := by
      cases hsv : saveOk (Role.save db r).2 with
      | false => rfl
      | true =>
        rcases (role_pre_save_ok_iff db r).mp
            ((role_save_ok_iff db r).mp hsv) with ⟨hA, hB, -⟩
        rcases hbad with h | h
        · exact absurd hA h
        · exact absurd hB h
    exact ⟨hfail, role_save_state_of_error db r hfail⟩
  · intro hok
    rcases (role_pre_save_ok_iff db r).mp
        ((role_save_ok_iff db r).mp hok) with ⟨hA, hB, -⟩
    exact ⟨hA, hB⟩
  · intro hinv hok o ho
    rw [role_save_state_of_ok db r hok] at ho
    rcases List.mem_append.mp ho with hf | hr
    · exact hinv o (List.mem_filter.mp hf).1
    · have heq : o = r := List.mem_singleton.mp hr
      rcases (role_pre_save_ok_iff db r).mp
          ((role_save_ok_iff db r).mp hok) with ⟨hA, hB, -⟩
      rw [heq]
      exact ⟨hA, hB⟩

/-- Witness for the amended C6: a role with tier_level 200 is rejected with
the table unchanged, and a successful save of an in-range role yields a table
whose rows are all in range. -/
theorem C6_witness :
    (saveOk (Role.save [] ⟨1, 1, 200, 1⟩).2 = false ∧
      (Role.save [] ⟨1, 1, 200, 1⟩).1 = []) ∧
    ((0 ≤ (⟨1, 1, 5, 3⟩ : Role).tier_level ∧
      (⟨1, 1, 5, 3⟩ : Role).tier_level ≤ 100) ∧
      (0 ≤ (⟨1, 1, 5, 3⟩ : Role).tier_power ∧
        (⟨1, 1, 5, 3⟩ : Role).tier_power ≤ 9)) ∧
    (∀ o ∈ (Role.save [] (⟨1, 1, 5, 3⟩ : Role)).1,
      (0 ≤ o.tier_level ∧ o.tier_level ≤ 100) ∧
      (0 ≤ o.tier_power ∧ o.tier_power ≤ 9)) :=
  ⟨(C6_tier_range_checks [] ⟨1, 1, 200, 1⟩).1 (.inl (by decide)),
   (C6_tier_range_checks [] ⟨1, 1, 5, 3⟩).2.1 (by decide),
   (C6_tier_range_checks [] ⟨1, 1, 5, 3⟩).2.2 (by decide) (by decide)⟩

/-- Helper: `PacketRole.save` either succeeds, appending the row, or fails
with the `_pre_save` error, leaving the table unchanged. -/
theorem packet_role_save_cases (db : List PacketRole) (pr : PacketRole) :
    (PacketRole.save db pr = (db ++ [pr], .ok ()) ∧
      PacketRole.pre_save db pr = .ok ()) ∨
    (∃ e, PacketRole.save db pr = (db, .error e) ∧
      PacketRole.pre_save db pr = .error e) := by
  unfold PacketRole.save
  cases h : PacketRole.pre_save db pr with
  | ok a => cases a; exact .inl ⟨rfl, rfl⟩
  | error e => exact .inr ⟨e, rfl, rfl⟩

/-- Helper: `PacketRole._pre_save` succeeds exactly when the duration is
non-negative, the packet stays within the role limit, and the role and packet
belong to the same guild. -/
theorem packet_role_pre_save_ok_iff (db : List PacketRole) (pr : PacketRole) :
    PacketRole.pre_save db pr = .ok () ↔
      0 ≤ pr.duration ∧
      packetRolesCount db pr.role_packet + 1 ≤ RolePacket.MAXIMUM_ROLES ∧
      pr.role.guild = pr.role_packet.guild := by
  unfold PacketRole.pre_save
  by_cases h₁ : pr.duration < 0
  · simp [h₁, not_le.mpr h₁]
  · by_cases h₂ : packetRolesCount db pr.role_packet + 1 > RolePacket.MAXIMUM_ROLES
    · simp [h₁, h₂, not_le.mpr h₂, not_lt.mp h₁]
    · by_cases h₃ : pr.role.guild ≠ pr.role_packet.guild
      · simp [h₁, h₂, h₃, not_lt.mp h₁, not_lt.mp h₂]
      · simp [h₁, h₂, h₃, not_lt.mp h₁, not_lt.mp h₂, not_ne_iff.mp h₃]

/-- Helper: success of `PacketRole.save` is success of its `_pre_save`. -/
theorem packet_role_save_ok_iff (db : List PacketRole) (pr : PacketRole) :
    saveOk (PacketRole.save db pr).2 = true ↔
      PacketRole.pre_save db pr = .ok () := by
  rcases packet_role_save_cases db pr with ⟨hs, hp⟩ | ⟨e, hs, hp⟩ <;>
    rw [hs, hp] <;> simp [saveOk]

/-- Helper: a failed `PacketRole.save` leaves the table unchanged. -/
theorem packet_role_save_state_of_error (db : List PacketRole) (pr : PacketRole)
    (h : saveOk (PacketRole.save db pr).2 = false) :
    (PacketRole.save db pr).1 = db := by
  rcases packet_role_save_cases db pr with ⟨hs, _⟩ | ⟨e, hs, _⟩
  · rw [hs] at h; simp [saveOk] at h
  · rw [hs]

/-- Helper: a successful `PacketRole.save` appends the row. -/
theorem packet_role_save_state_of_ok (db : List PacketRole) (pr : PacketRole)
    (h : saveOk (PacketRole.save db pr).2 = true) :
    (PacketRole.save db pr).1 = db ++ [pr] := by
  rcases packet_role_save_cases db pr with ⟨hs, _⟩ | ⟨e, hs, _⟩
  · rw [hs]
  · rw [hs] at h; simp [saveOk] at h

/-- Helper: appending one packet role increases exactly its own packet's
count by one. -/
theorem packetRolesCount_append (db : List PacketRole) (pr : PacketRole)
    (p : RolePacket) :
    packetRolesCount (db ++ [pr]) p =
      packetRolesCount db p + (if pr.role_packet.id = p.id then 1 else 0) := by
  unfold packetRolesCount
  rw [List.filter_append, List.length_append]
  by_cases h : pr.role_packet.id = p.id <;> simp [h]

/-- Helper: the packet-role count depends only on the packet id. -/
theorem packetRolesCount_eq_of_id_eq (db : List PacketRole) (p q : RolePacket)
    (h : p.id = q.id) : packetRolesCount db p = packetRolesCount db q := by
  unfold packetRolesCount
  rw [h]

/-- Helper: no packet can count more roles than the table holds. -/
theorem packetRolesCount_le_length (db : List PacketRole) (p : RolePacket) :
    packetRolesCount db p ≤ db.length :=
  List.length_filter_le _ _

/-- C7: saving a packet role into a packet that already holds
`MAXIMUM_ROLES` (20) roles raises an error and leaves the table unchanged; a
packet with 19 roles accepts a valid 20th; and a table in which every packet
holds at most 20 roles keeps that bound across any successful save. -/
theorem C7_packet_role_limit (db : List PacketRole) (pr : PacketRole) :
    (RolePacket.MAXIMUM_ROLES ≤ packetRolesCount db pr.role_packet →
      saveOk (PacketRole.save db pr).2 = false ∧
      (PacketRole.save db pr).1 = db) ∧
    (packetRolesCount db pr.role_packet = 19 → 0 ≤ pr.duration →
      pr.role.guild = pr.role_packet.guild →
      saveOk (PacketRole.save db pr).2 = true) ∧
    ((∀ p : RolePacket, packetRolesCount db p ≤ RolePacket.MAXIMUM_ROLES) →
      saveOk (PacketRole.save db pr).2 = true →
      ∀ p : RolePacket,
        packetRolesCount (PacketRole.save db pr).1 p ≤ RolePacket.MAXIMUM_ROLES) := by
  refine ⟨?_, ?_, ?_⟩
  · intro hfull
    have hfail : saveOk (PacketRole.save db pr).2 = false := by
      cases hsv : saveOk (PacketRole.save db pr).2 with
      | false => rfl
      | true =>
        rcases (packet_role_pre_save_ok_iff db pr).mp
            ((packet_role_save_ok_iff db pr).mp hsv) with ⟨-, hcount, -⟩
        unfold RolePacket.MAXIMUM_ROLES at hfull hcount
        omega
    exact ⟨hfail, packet_role_save_state_of_error db pr hfail⟩
  · intro hcount hdur hguild
    apply (packet_role_save_ok_iff db pr).mpr
    apply (packet_role_pre_save_ok_iff db pr).mpr
    refine ⟨hdur, ?_, hguild⟩
    rw [hcount]
    unfold RolePacket.MAXIMUM_ROLES
    omega
  · intro hinv hok p
    rcases (packet_role_pre_save_ok_iff db pr).mp
        ((packet_role_save_ok_iff db pr).mp hok) with ⟨-, hcount, -⟩
    rw [packet_role_save_state_of_ok db pr hok, packetRolesCount_append]
    by_cases h : pr.role_packet.id = p.id
    · rw [if_pos h, ← packetRolesCount_eq_of_id_eq db pr.role_packet p h]
      unfold RolePacket.MAXIMUM_ROLES at hcount ⊢
      omega
    · rw [if_neg h]
      have := hinv p
      omega

/-- Witness for C7: a packet filled with 20 copies of the same packet-role
row rejects a further role, while a packet with 19 rows accepts one; the
resulting table still satisfies the 20-role bound. -/
theorem C7_witness :
    (saveOk (PacketRole.save
        (List.replicate 20 ⟨⟨1, 1, 0, 1⟩, ⟨1, 1, "pack", 10⟩, 5⟩)
        ⟨⟨1, 1, 0, 1⟩, ⟨1, 1, "pack", 10⟩, 5⟩).2 = false ∧
      (PacketRole.save (List.replicate 20 ⟨⟨1, 1, 0, 1⟩, ⟨1, 1, "pack", 10⟩, 5⟩)
        ⟨⟨1, 1, 0, 1⟩, ⟨1, 1, "pack", 10⟩, 5⟩).1 =
        List.replicate 20 ⟨⟨1, 1, 0, 1⟩, ⟨1, 1, "pack", 10⟩, 5⟩) ∧
    saveOk (PacketRole.save
        (List.replicate 19 ⟨⟨1, 1, 0, 1⟩, ⟨1, 1, "pack", 10⟩, 5⟩)
        ⟨⟨1, 1, 0, 1⟩, ⟨1, 1, "pack", 10⟩, 5⟩).2 = true ∧
    (∀ p : RolePacket,
      packetRolesCount (PacketRole.save
        (List.replicate 19 ⟨⟨1, 1, 0, 1⟩, ⟨1, 1, "pack", 10⟩, 5⟩)
        ⟨⟨1, 1, 0, 1⟩, ⟨1, 1, "pack", 10⟩, 5⟩).1 p ≤ RolePacket.MAXIMUM_ROLES) :=
  ⟨(C7_packet_role_limit _ _).1 (by decide),
   (C7_packet_role_limit _ _).2.1 (by decide) (by decide) (by decide),
   (C7_packet_role_limit _ _).2.2
     (fun p => le_trans (packetRolesCount_le_length _ p) (by decide))
     ((C7_packet_role_limit _ _).2.1 (by decide) (by decide) (by decide))⟩

/-- Helper: `License.save` either succeeds, upserting the row by its key, or
fails with the `_pre_save` error, leaving the table unchanged. -/
theorem license_save_cases (db : List License) (l : License) :
    (License.save db l = (db.filter (fun o => o.key != l.key) ++ [l], .ok ()) ∧
      License.pre_save l = .ok ()) ∨
    (∃ e, License.save db l = (db, .error e) ∧ License.pre_save l = .error e) := by
  unfold License.save
  cases h : License.pre_save l with
  | ok a => cases a; exact .inl ⟨rfl, rfl⟩
  | error e => exact .inr ⟨e, rfl, rfl⟩

/-- Helper: `License._pre_save` succeeds exactly when the key has at least
`KEY_MIN_LENGTH` characters. -/
theorem license_pre_save_ok_iff (l : License) :
    License.pre_save l = .ok () ↔ License.KEY_MIN_LENGTH ≤ l.key.length := by
  unfold License.pre_save
  by_cases h : l.key.length < License.KEY_MIN_LENGTH
  · simp [h, not_le.mpr h]
  · simp [h, not_lt.mp h]

/-- C8: saving a license whose key is shorter than 14 characters raises an
error and leaves the table unchanged, a key of at least 14 characters passes
the length check, and a table whose keys all have at least 14 characters
keeps that property across any successful save. -/
theorem C8_license_key_min_length (db : List License) (l : License) :
    (l.key.length < License.KEY_MIN_LENGTH →
      saveOk (License.save db l).2 = false ∧ (License.save db l).1 = db) ∧
    (License.KEY_MIN_LENGTH ≤ l.key.length →
      saveOk (License.save db l).2 = true) ∧
    ((∀ o ∈ db, License.KEY_MIN_LENGTH ≤ o.key.length) →
      saveOk (License.save db l).2 = true →
      ∀ o ∈ (License.save db l).1, License.KEY_MIN_LENGTH ≤ o.key.length) := by
  refine ⟨?_, ?_, ?_⟩
  · intro hshort
    rcases license_save_cases db l with ⟨hs, hp⟩ | ⟨e, hs, hp⟩
    · exact absurd ((license_pre_save_ok_iff l).mp hp) (not_le.mpr hshort)
    · rw [hs]
      exact ⟨rfl, rfl⟩
  · intro hlong
    rcases license_save_cases db l with ⟨hs, hp⟩ | ⟨e, hs, hp⟩
    · rw [hs]; rfl
    · rw [(license_pre_save_ok_iff l).mpr hlong] at hp
      exact Except.noConfusion hp
  · intro hinv hok o ho
    rcases license_save_cases db l with ⟨hs, hp⟩ | ⟨e, hs, hp⟩
    · rw [hs] at ho
      rcases List.mem_append.mp ho with hf | hr
      · exact hinv o (List.mem_filter.mp hf).1
      · have heq : o = l := List.mem_singleton.mp hr
        rw [heq]
        exact (license_pre_save_ok_iff l).mp hp
    · rw [hs] at hok; simp [saveOk] at hok

/-- Witness for C8: the 5-character key SHORT is rejected with the table
unchanged, and the 14-character key ABCDEFGHIJKLMN is accepted into an empty
table, all of whose keys then meet the minimum length. -/
theorem C8_witness :
    (saveOk (License.save [] ⟨"SHORT", 1, 1, false⟩).2 = false ∧
      (License.save [] ⟨"SHORT", 1, 1, false⟩).1 = []) ∧
    saveOk (License.save [] ⟨"ABCDEFGHIJKLMN", 1, 1, false⟩).2 = true ∧
    (∀ o ∈ (License.save [] (⟨"ABCDEFGHIJKLMN", 1, 1, false⟩ : License)).1,
      License.KEY_MIN_LENGTH ≤ o.key.length) :=
  ⟨(C8_license_key_min_length [] ⟨"SHORT", 1, 1, false⟩).1 (by decide),
   (C8_license_key_min_length [] ⟨"ABCDEFGHIJKLMN", 1, 1, false⟩).2.1 (by decide),
   (C8_license_key_min_length [] ⟨"ABCDEFGHIJKLMN", 1, 1, false⟩).2.2
     (by intro o ho; cases ho) ((C8_license_key_min_length []
       ⟨"ABCDEFGHIJKLMN", 1, 1, false⟩).2.1 (by decide))⟩

/-- Helper: the permutation product is multiplicative over concatenation. -/
theorem permProduct_append (l₁ l₂ : List Char) :
    permProduct (l₁ ++ l₂) = permProduct l₁ * permProduct l₂ := by
  induction l₁ with
  | nil => simp [permProduct]
  | cons c rest ih => simp [permProduct, ih, Nat.mul_assoc]

/-- Helper: every character class has at least one character. -/
theorem placeholderClassSize_pos (c : Char) : 0 < placeholderClassSize c := by
  unfold placeholderClassSize
  split_ifs <;> norm_num

/-- Helper: pushing a character onto a string appends it to the data. -/
theorem data_push_eq (t : String) (c : Char) :
    (t.push c).data = t.data ++ [c] := rfl

/-- C9: appending a placeholder character to a template never decreases its
permutation count, and consequently never turns `is_secure` from true to
false. -/
theorem C9_permutation_monotonicity (t : String) (c : Char)
    (h : isPlaceholder c = true) :
    get_format_permutations t ≤ get_format_permutations (t.push c) ∧
    (is_secure t = true → is_secure (t.push c) = true) := by
  have hgrow : get_format_permutations (t.push c) =
      get_format_permutations t * placeholderClassSize c := by
    unfold get_format_permutations
    rw [data_push_eq, permProduct_append]
    simp [permProduct]
  have hle : get_format_permutations t ≤ get_format_permutations (t.push c) := by
    rw [hgrow]
    exact le_mul_of_one_le_right (Nat.zero_le _) (placeholderClassSize_pos c)
  refine ⟨hle, ?_⟩
  intro hsec
  unfold is_secure at hsec ⊢
  simp only [decide_eq_true_eq] at hsec ⊢
  exact le_trans hsec hle

/-- Witness for C9 at the template XXXX and the placeholder X. -/
theorem C9_witness :
    get_format_permutations "XXXX" ≤ get_format_permutations ("XXXX".push 'X') ∧
    (is_secure "XXXX" = true → is_secure ("XXXX".push 'X') = true) :=
  C9_permutation_monotonicity "XXXX" 'X' (by decide)

/-- Helper: under the success conditions — the original reminders row exists
and is valid, and both keys meet the minimum length — the regenerate trace is
exactly the four observable states written in order, and the result is the
new license. -/
theorem RegLicense.regenerate_eq (s : LicenseState) (self : RegLicense)
    (orig : RemRow) (newKey : String) (fid : Nat)
    (hLook : lookupRem s.reminders self.reminder_activations = some orig)
    (hValid : orig.values.post_save_checks = .ok ())
    (hNewKey : ¬newKey.length < License.KEY_MIN_LENGTH)
    (hSelfKey : ¬self.key.length < License.KEY_MIN_LENGTH) :
    RegLicense.regenerate s self newKey fid =
      ([s,
        ⟨s.reminders ++ [⟨fid, orig.values⟩], s.licenses⟩,
        ⟨s.reminders ++ [⟨fid, orig.values⟩],
          s.licenses.filter (fun o => o.key != newKey) ++
            [(⟨newKey, self.guild, fid, false, self.role_packet⟩ : RegLicense)]⟩,
        ⟨s.reminders ++ [⟨fid, orig.values⟩],
          (s.licenses.filter (fun o => o.key != newKey) ++
            [(⟨newKey, self.guild, fid, false, self.role_packet⟩ : RegLicense)]).filter
              (fun o => o.key != self.key) ++ [{ self with inactive := true }]⟩],
       .ok ⟨newKey, self.guild, fid, false, self.role_packet⟩) := by
  simp only [RegLicense.regenerate, hLook, hValid, RegLicense.pre_save]
  rw [if_neg hNewKey, if_neg hSelfKey]

/-- C3: a successful regenerate leaves the original license stored with
inactive = true, returns a distinct new license that is stored Active
(inactive = false) with the same guild and the same role packet, and creates
a fresh ReminderActivations row carrying exactly the five activation values
of the original license's row. -/
theorem C3_regenerate_effects (s : LicenseState) (self : RegLicense)
    (orig : RemRow) (newKey : String) (fid : Nat)
    (hLook : lookupRem s.reminders self.reminder_activations = some orig)
    (hValid : orig.values.post_save_checks = .ok ())
    (hNewKey : License.KEY_MIN_LENGTH ≤ newKey.length)
    (hSelfKey : License.KEY_MIN_LENGTH ≤ self.key.length)
    (hDistinct : newKey ≠ self.key)
    (hFresh : ∀ rr ∈ s.reminders, rr.id ≠ fid) :
    ∃ (newLic : RegLicense) (finalSt : LicenseState),
      (RegLicense.regenerate s self newKey fid).2 = .ok newLic ∧
      (RegLicense.regenerate s self newKey fid).1.getLast? = some finalSt ∧
      newLic.key = newKey ∧ newLic.inactive = false ∧
      newLic.guild = self.guild ∧ newLic.role_packet = self.role_packet ∧
      newLic.reminder_activations = fid ∧
      newLic ∈ finalSt.licenses ∧
      { self with inactive := true } ∈ finalSt.licenses ∧
      (∀ o ∈ finalSt.licenses, o.key = self.key → o = { self with inactive := true }) ∧
      (∀ o ∈ finalSt.licenses, o.key = newKey → o = newLic) ∧
      (⟨fid, orig.values⟩ : RemRow) ∈ finalSt.reminders ∧
      (⟨fid, orig.values⟩ : RemRow) ∉ s.reminders := by
  have heq := RegLicense.regenerate_eq s self orig newKey fid hLook hValid
    (not_lt.mpr hNewKey) (not_lt.mpr hSelfKey)
  rw [heq]
  refine ⟨⟨newKey, self.guild, fid, false, self.role_packet⟩,
    ⟨s.reminders ++ [⟨fid, orig.values⟩],
      (s.licenses.filter (fun o => o.key != newKey) ++
        [(⟨newKey, self.guild, fid, false, self.role_packet⟩ : RegLicense)]).filter
          (fun o => o.key != self.key) ++ [{ self with inactive := true }]⟩,
    rfl, ?_, rfl, rfl, rfl, rfl, rfl, ?_, ?_, ?_, ?_, ?_, ?_⟩
  · rfl
  · apply List.mem_append_left
    apply List.mem_filter.mpr
    refine ⟨List.mem_append_right _ (List.mem_singleton_self _), ?_⟩
    simpa [bne_iff_ne] using hDistinct
  · exact List.mem_append_right _ (List.mem_singleton_self _)
  · intro o ho hkey
    rcases List.mem_append.mp ho with hf | hr
    · have hcond := (List.mem_filter.mp hf).2
      exact absurd hkey (by simpa [bne_iff_ne] using hcond)
    · exact List.mem_singleton.mp hr
  · intro o ho hkey
    rcases List.mem_append.mp ho with hf | hr
    · have hmem₂ := (List.mem_filter.mp hf).1
      rcases List.mem_append.mp hmem₂ with hf₁ | hr₁
      · have hcond := (List.mem_filter.mp hf₁).2
        exact absurd hkey (by simpa [bne_iff_ne] using hcond)
      · exact List.mem_singleton.mp hr₁
    · have heq₂ := List.mem_singleton.mp hr
      rw [heq₂] at hkey
      simp at hkey
      exact absurd hkey.symm hDistinct
  · exact List.mem_append_right _ (List.mem_singleton_self _)
  · intro hmem
    exact hFresh _ hmem rfl

/-- Witness for C3 at the concrete state exState: regenerating the stored
license ORIGINAL-KEY-1 under the fresh key REGENERATED-K1 and fresh
reminders id 2 produces the claimed final state. -/
theorem C3_witness :
    ∃ (newLic : RegLicense) (finalSt : LicenseState),
      (RegLicense.regenerate exState exOriginal "REGENERATED-K1" 2).2 = .ok newLic ∧
      (RegLicense.regenerate exState exOriginal "REGENERATED-K1" 2).1.getLast? =
        some finalSt ∧
      newLic.key = "REGENERATED-K1" ∧ newLic.inactive = false ∧
      newLic.guild = exOriginal.guild ∧
      newLic.role_packet = exOriginal.role_packet ∧
      newLic.reminder_activations = 2 ∧
      newLic ∈ finalSt.licenses ∧
      { exOriginal with inactive := true } ∈ finalSt.licenses ∧
      (∀ o ∈ finalSt.licenses, o.key = exOriginal.key →
        o = { exOriginal with inactive := true }) ∧
      (∀ o ∈ finalSt.licenses, o.key = "REGENERATED-K1" → o = newLic) ∧
      (⟨2, ⟨720, 0, 0, 0, 0⟩⟩ : RemRow) ∈ finalSt.reminders ∧
      (⟨2, ⟨720, 0, 0, 0, 0⟩⟩ : RemRow) ∉ exState.reminders :=
  C3_regenerate_effects exState exOriginal ⟨1, ⟨720, 0, 0, 0, 0⟩⟩
    "REGENERATED-K1" 2 rfl rfl (by decide) (by decide) (by decide) (by decide)

/-- C4 counterexample: in the concrete run of regenerate on exState the
trace has four observable states and its state at index 2 — reached after
the new license row is saved and before the original is marked inactive —
holds the original license still Active and the replacement license already
Active, so the two writes are not observably atomic. -/
theorem C4_counterexample :
    (RegLicense.regenerate exState exOriginal "REGENERATED-K1" 2).1.length = 4 ∧
    ∃ st ∈ (RegLicense.regenerate exState exOriginal "REGENERATED-K1" 2).1,
      (RegLicense.regenerate exState exOriginal "REGENERATED-K1" 2).1[2]? = some st ∧
      (∃ o ∈ st.licenses, o.key = exOriginal.key ∧ o.inactive = false) ∧
      (∃ n ∈ st.licenses, n.key = "REGENERATED-K1" ∧ n.inactive = false) := by
  decide

/-- C4 (amended): the two writes of a successful regenerate are not atomic —
the trace contains an observable state, after the new license is saved and
before the original is deactivated, in which both licenses are Active — but
at no observable state of the trace are both licenses Inactive. -/
theorem C4_regenerate_intermediate_states (s : LicenseState) (self : RegLicense)
    (orig : RemRow) (newKey : String) (fid : Nat)
    (hLook : lookupRem s.reminders self.reminder_activations = some orig)
    (hValid : orig.values.post_save_checks = .ok ())
    (hNewKey : License.KEY_MIN_LENGTH ≤ newKey.length)
    (hSelfKey : License.KEY_MIN_LENGTH ≤ self.key.length)
    (hDistinct : newKey ≠ self.key)
    (hSelfMem : self ∈ s.licenses)
    (hSelfActive : self.inactive = false)
    (hSelfUnique : ∀ o ∈ s.licenses, o.key = self.key → o = self)
    (hNewFresh : ∀ o ∈ s.licenses, o.key ≠ newKey) :
    (∃ st ∈ (RegLicense.regenerate s self newKey fid).1,
      (∃ o ∈ st.licenses, o.key = self.key ∧ o.inactive = false) ∧
      (∃ n ∈ st.licenses, n.key = newKey ∧ n.inactive = false)) ∧
    (∀ st ∈ (RegLicense.regenerate s self newKey fid).1,
      ¬((∃ o ∈ st.licenses, o.key = self.key ∧ o.inactive = true) ∧
        (∃ n ∈ st.licenses, n.key = newKey ∧ n.inactive = true))) := by
  have heq := RegLicense.regenerate_eq s self orig newKey fid hLook hValid
    (not_lt.mpr hNewKey) (not_lt.mpr hSelfKey)
  rw [heq]
  constructor
  · refine ⟨⟨s.reminders ++ [⟨fid, orig.values⟩],
      s.licenses.filter (fun o => o.key != newKey) ++
        [(⟨newKey, self.guild, fid, false, self.role_packet⟩ : RegLicense)]⟩, ?_, ?_, ?_⟩
    · simp
    · refine ⟨self, List.mem_append_left _ (List.mem_filter.mpr ⟨hSelfMem, ?_⟩),
        rfl, hSelfActive⟩
      simpa [bne_iff_ne] using hNewFresh self hSelfMem
    · exact ⟨⟨newKey, self.guild, fid, false, self.role_packet⟩,
        List.mem_append_right _ (List.mem_singleton_self _), rfl, rfl⟩
  · intro st hst
    have hcases := hst
    simp only [List.mem_cons, List.not_mem_nil, or_false] at hcases
    rcases hcases with rfl | rfl | rfl | rfl
    · rintro ⟨-, ⟨n, hn, hnk, -⟩⟩
      exact hNewFresh n hn hnk
    · rintro ⟨-, ⟨n, hn, hnk, -⟩⟩
      exact hNewFresh n hn hnk
    · rintro ⟨⟨o, ho, hok, hoi⟩, -⟩
      rcases List.mem_append.mp ho with hf | hr
      · have := hSelfUnique o (List.mem_filter.mp hf).1 hok
        rw [this] at hoi
        rw [hSelfActive] at hoi
        exact Bool.noConfusion hoi
      · have heqn := List.mem_singleton.mp hr
        rw [heqn] at hok
        simp at hok
        exact hDistinct hok
    · rintro ⟨-, ⟨n, hn, hnk, hni⟩⟩
      rcases List.mem_append.mp hn with hf | hr
      · rcases List.mem_append.mp (List.mem_filter.mp hf).1 with hf₁ | hr₁
        · exact hNewFresh n (List.mem_filter.mp hf₁).1 hnk
        · have heqn := List.mem_singleton.mp hr₁
          rw [heqn] at hni
          exact Bool.noConfusion hni
      · have heqn := List.mem_singleton.mp hr
        rw [heqn] at hnk
        simp at hnk
        exact hDistinct hnk.symm

/-- Witness for the amended C4 at the concrete state exState. -/
theorem C4_witness :
    (∃ st ∈ (RegLicense.regenerate exState exOriginal "REGENERATED-K1" 2).1,
      (∃ o ∈ st.licenses, o.key = exOriginal.key ∧ o.inactive = false) ∧
      (∃ n ∈ st.licenses, n.key = "REGENERATED-K1" ∧ n.inactive = false)) ∧
    (∀ st ∈ (RegLicense.regenerate exState exOriginal "REGENERATED-K1" 2).1,
      ¬((∃ o ∈ st.licenses, o.key = exOriginal.key ∧ o.inactive = true) ∧
        (∃ n ∈ st.licenses, n.key = "REGENERATED-K1" ∧ n.inactive = true))) :=
  C4_regenerate_intermediate_states exState exOriginal ⟨1, ⟨720, 0, 0, 0, 0⟩⟩
    "REGENERATED-K1" 2 rfl rfl (by decide) (by decide) (by decide)
    (by decide) rfl (by decide) (by decide)

/-- Helper: the default ReminderActivations row passes its post-save checks. -/
theorem defaultRow_checks_ok :
    ReminderActivations.defaultRow.post_save_checks = .ok () := rfl

/-- Helper: with a passing pre-save, `License.save` upserts the row. -/
theorem License.save_of_pre_ok (db : List License) (l : License)
    (h : License.pre_save l = .ok ()) :
    License.save db l = (db.filter (fun o => o.key != l.key) ++ [l], .ok ()) := by
  unfold License.save
  rw [h]

/-- C10: creating a license with the reminder_activations argument omitted
links it to a brand-new ReminderActivations row holding the model defaults
(720, 0, 0, 0, 0); the guild row's configured reminder_activations value is
never consulted — two guilds differing only in that field produce identical
results. -/
theorem C10_license_create_default_reminders (remDB : List RemRow)
    (licDB : List License) (g : Guild) (key : String) (fid : Nat)
    (hKey : License.KEY_MIN_LENGTH ≤ key.length) :
    (License.createModel remDB licDB g none key fid).2 =
      .ok ⟨key, g.id, fid, false⟩ ∧
    (License.createModel remDB licDB g none key fid).1.1 =
      remDB ++ [⟨fid, ReminderActivations.defaultRow⟩] ∧
    ReminderActivations.defaultRow = (⟨720, 0, 0, 0, 0⟩ : ReminderActivations) ∧
    ∀ ra₁ ra₂ : Nat,
      License.createModel remDB licDB
          ⟨g.id, g.custom_license_format, g.license_branding, ra₁⟩ none key fid =
        License.createModel remDB licDB
          ⟨g.id, g.custom_license_format, g.license_branding, ra₂⟩ none key fid := by
  have hpre : License.pre_save ⟨key, g.id, fid, false⟩ = .ok () :=
    (license_pre_save_ok_iff _).mpr hKey
  have hred : License.createModel remDB licDB g none key fid =
      ((remDB ++ [⟨fid, ReminderActivations.defaultRow⟩],
        licDB.filter (fun o => o.key != key) ++ [⟨key, g.id, fid, false⟩]),
       .ok ⟨key, g.id, fid, false⟩) := by
    simp only [License.createModel, defaultRow_checks_ok,
      License.save_of_pre_ok licDB _ hpre]
  exact ⟨by rw [hred], by rw [hred], rfl, fun ra₁ ra₂ => rfl⟩

/-- Witness for C10: creating a license with a 14-character key and no
reminder_activations argument stores the default reminders row; guilds
configured with reminders rows 1 and 2 give identical results. -/
theorem C10_witness :
    (License.createModel [] [] ⟨9, "", "", 1⟩ none "ABCDEFGHIJKLMN" 5).2 =
      .ok ⟨"ABCDEFGHIJKLMN", 9, 5, false⟩ ∧
    (License.createModel [] [] ⟨9, "", "", 1⟩ none "ABCDEFGHIJKLMN" 5).1.1 =
      [⟨5, ReminderActivations.defaultRow⟩] ∧
    ReminderActivations.defaultRow = (⟨720, 0, 0, 0, 0⟩ : ReminderActivations) ∧
    License.createModel [] [] ⟨9, "", "", 1⟩ none "ABCDEFGHIJKLMN" 5 =
      License.createModel [] [] ⟨9, "", "", 2⟩ none "ABCDEFGHIJKLMN" 5 :=
  ⟨(C10_license_create_default_reminders [] [] ⟨9, "", "", 1⟩
      "ABCDEFGHIJKLMN" 5 (by decide)).1,
   (C10_license_create_default_reminders [] [] ⟨9, "", "", 1⟩
      "ABCDEFGHIJKLMN" 5 (by decide)).2.1,
   (C10_license_create_default_reminders [] [] ⟨9, "", "", 1⟩
      "ABCDEFGHIJKLMN" 5 (by decide)).2.2.1,
   (C10_license_create_default_reminders [] [] ⟨9, "", "", 1⟩
      "ABCDEFGHIJKLMN" 5 (by decide)).2.2.2 1 2⟩

end Licensy
